import Mathlib

set_option maxRecDepth 100000

/-!
Shallow embedding of the query-time RAG pipeline of the sine_chatbot repository:
the prompt formatter and disclaimer gate (src/service/prompt_service.py), the
hybrid query embedder (src/service/embeddings_services.py), the Qdrant
retrieval client (src/service/retriever_service.py), the Bedrock generation
client (src/service/llm_service.py), and the three LangGraph stage functions
(src/core/agent.py), together with theorems settling the frozen claims about
this code.

Remote collaborators (the Bedrock embedding and generation backends and the
Qdrant vector store) are external services; each is modelled as an explicit
input describing the outcome of the single call the code makes to it: an
Except value that is an error exactly when the Python call raises.  Python
functions that can raise are embedded as Except-returning functions; Python
dicts of parsed JSON are embedded as association lists of a JValue type.
-/

/-- Decides whether the first character list is a leading block of the second
(the needle placed at the current position). Helper for substring search. -/
def subPre : List Char → List Char → Bool
  | [], _ => true
  | _ :: _, [] => false
  | a :: as, b :: bs => a == b && subPre as bs

/-- Decides whether the needle occurs as a contiguous substring of the hay,
the semantics of the Python expression needle in hay on strings. -/
def subIn (needle : List Char) : List Char → Bool
  | [] => needle.isEmpty
  | c :: t => subPre needle (c :: t) || subIn needle t

/-- Python string containment needle in hay, at the String level. -/
def occursIn (needle hay : String) : Bool := subIn needle.data hay.data

/-- Python str.strip with no arguments: drop leading and trailing whitespace. -/
def pyStrip (s : String) : String :=
  ⟨((s.data.dropWhile Char.isWhitespace).reverse.dropWhile Char.isWhitespace).reverse⟩

/-- Number of maximal non-whitespace runs, seen after a preceding
in-word flag: this is the length of the list Python str.split() returns. -/
def wordsAux : List Char → Bool → Nat
  | [], _ => 0
  | c :: t, inw =>
    if c.isWhitespace then wordsAux t false
    else (if inw then 0 else 1) + wordsAux t true

/-- Length of the token list of Python s.strip().split():
the number of whitespace-separated tokens of s. -/
def pyTokenCount (s : String) : Nat := wordsAux s.data false

/-- Python str.lower on one character, on the Basic Latin and Latin-1 range
(ASCII letters plus the accented uppercase letters U+00C0 to U+00DE except
the multiplication sign), which covers every character the program's fixed
vocabularies and Portuguese texts use. Other characters are kept unchanged. -/
def pyLowerChar (c : Char) : Char :=
  if 'A' ≤ c ∧ c ≤ 'Z' then Char.ofNat (c.toNat + 32)
  else if 0xC0 ≤ c.toNat ∧ c.toNat ≤ 0xDE ∧ c.toNat ≠ 0xD7 then Char.ofNat (c.toNat + 32)
  else c

/-- Python str.lower, applied characterwise. -/
def pyLower (s : String) : String := ⟨s.data.map pyLowerChar⟩

/-- Parsed JSON values, the data carried by Python dicts that the services
exchange (Bedrock response envelopes, Qdrant payloads, the serialized error
records). Objects are association lists with string keys. -/
inductive JValue where
  | null : JValue
  | bool : Bool → JValue
  | num : Int → JValue
  | str : String → JValue
  | arr : List JValue → JValue
  | obj : List (String × JValue) → JValue

/-- Python truthiness of a parsed JSON value: None, False, 0, empty string,
empty list and empty dict are falsy, everything else is truthy. -/
def pyTruthy : JValue → Bool
  | .null => false
  | .bool b => b
  | .num n => n != 0
  | .str s => s != ""
  | .arr l => !l.isEmpty
  | .obj fs => !fs.isEmpty

/-- Python str() rendering of a parsed JSON value, used only when an f-string
interpolates a non-string value; container rendering is abbreviated since no
pipeline-produced record ever exercises it. -/
def pyStr : JValue → String
  | .null => "None"
  | .bool true => "True"
  | .bool false => "False"
  | .num n => toString n
  | .str s => s
  | .arr _ => "[...]"
  | .obj _ => "\x7b...\x7d"

/-- Python d.get(k, default) on an object's field list. -/
def pyDictGetD (fs : List (String × JValue)) (k : String) (d : JValue) : JValue :=
  (List.lookup k fs).getD d

/-- Python d.get(k, default) where the caller expects a string: a string value
is returned as is, any other present value is rendered with str() as an
f-string would, and the default is used when the key is absent. -/
def pyGetStrD (fs : List (String × JValue)) (k : String) (d : String) : String :=
  match List.lookup k fs with
  | some (.str s) => s
  | some v => pyStr v
  | none => d

/-- SparseVector of src/models/embeddings.py: parallel index and value lists
of a BM25-style sparse embedding. -/
structure SparseVector where
  indices : List Nat
  values : List Float

/-- QueryEmbeddings of src/models/embeddings.py: the hybrid embedding bundle
with a dense vector and a sparse BM25 vector. -/
structure QueryEmbeddings where
  dense : List Float
  sparse_bm25 : SparseVector

/-- Document of src/models/embeddings.py: a retrieved passage with its text
and optional metadata mapping. -/
structure Document where
  page_content : String
  metadata : Option (List (String × JValue)) := none

/-- The Agent TypedDict of src/core/agent.py: the state threaded through the
LangGraph pipeline. The error field carries the json.dumps serialization of a
stage error record; since Python's json.dumps and json.loads are mutually
inverse on these records (stdlib contract) the channel is modelled by the
parsed value itself, and a set error is never the empty string (a serialized
record always prints at least two braces), so the truthiness guard on the
serialized string holds exactly when the field is present. -/
structure AgentState where
  query : String
  filters : Option JValue := none
  query_embedding : Option QueryEmbeddings := none
  retrieved_docs : List Document := []
  context : String := ""
  response : Option String := none
  error : Option JValue := none

/-- A LangGraph node's return value: a partial state update. An outer none
means the key is absent from the returned dict and the state field is kept;
some v means the key is present and the field is overwritten with v. -/
structure NodeUpdate where
  query_embedding : Option (Option QueryEmbeddings) := none
  retrieved_docs : Option (List Document) := none
  context : Option String := none
  response : Option (Option String) := none
  error : Option (Option JValue) := none

/-- LangGraph's merge of a node's partial update into the current state. -/
def applyUpdate (s : AgentState) (u : NodeUpdate) : AgentState :=
  { query := s.query
    filters := s.filters
    query_embedding := u.query_embedding.getD s.query_embedding
    retrieved_docs := u.retrieved_docs.getD s.retrieved_docs
    context := u.context.getD s.context
    response := u.response.getD s.response
    error := u.error.getD s.error }

/-- Settings.retrieval_limit default of src/config/settings.py line 55,
the value agent.py passes to search_documents. -/
def settings_retrieval_limit : Nat := 10

/-- Settings.prefetch_limit default of src/config/settings.py line 40,
the per-representation candidate-pool bound sent to the store. -/
def settings_prefetch_limit : Nat := 25

/-- The fixed greeting vocabulary of format_rag_prompt
(src/service/prompt_service.py line 9). -/
def saudacoes : List String :=
  ["oi", "olá", "ola", "bom dia", "boa tarde", "boa noite", "hey", "e aí", "eai", "tudo bem"]

/-- Greeting detection of format_rag_prompt line 10: some vocabulary entry is
a Python substring of the lower-cased stripped query, and the query has at
most three whitespace-separated tokens. -/
def is_greeting (query : String) : Bool :=
  saudacoes.any (fun g => occursIn g (pyStrip (pyLower query))) &&
    decide (pyTokenCount query ≤ 3)

/-- The fixed placeholder used when no context was retrieved
(prompt_service.py line 13). -/
def noInfoMsg : String :=
  "Nenhuma informação específica sobre este produto foi encontrada nos documentos de referência."

/-- Constant head of the greeting-persona prompt, up to the interpolated
query (prompt_service.py lines 17 to 23). -/
def greetingHead : String :=
  "Você é um consultor agrícola experiente da Synap, especializado no portfólio Syngenta. \n\nResponda de forma calorosa e natural à saudação do usuário. Seja genuíno, como se fosse um encontro pessoal no campo. Apresente-se brevemente e pergunte como pode ajudar.\n\nUse apenas texto simples, sem formatação, e mantenha a conversa fluida e acolhedora.\n\nSaudação do usuário: "

/-- Constant tail of the greeting-persona prompt (prompt_service.py line 25). -/
def greetingTail : String := "\n\nSua resposta:"

/-- The greeting-persona prompt of prompt_service.py lines 17 to 26; it
interpolates only the query, never the context. -/
def greeting_prompt (query : String) : String :=
  greetingHead ++ query ++ greetingTail

/-- Constant head of the technical RAG prompt, up to the interpolated context
block (prompt_service.py lines 29 to 61). -/
def technicalHead : String :=
  "Você é um consultor agrícola experiente, apaixonado por ajudar produtores rurais. Tem anos de experiência no campo e conhece profundamente o portfólio de produtos Syngenta. Sua forma de falar é natural, acessível e confiável - como um amigo que entende do assunto.\n\nSua missão é ajudar o usuário com a pergunta dele, oferecendo orientação prática e confiável. Converse de forma fluida e humana, como se estivessem tomando um café e discutindo soluções para o campo.\n\nCOMO RESPONDER:\n\n1. **Seja Natural e Conversacional:**\n   - Fale como um consultor experiente falaria pessoalmente\n   - Use frases conectadas e fluidas, não listas robóticas\n   - Seja direto mas acolhedor\n   - Pode usar expressões naturais como \"olha\", \"veja bem\", \"é importante lembrar\"\n\n2. **Estruture sua Conversa de Forma Orgânica:**\n   - Comece falando sobre o produto em si\n   - Naturalmente mencione para que serve e como funciona\n   - Fale sobre dosagens e aplicação quando relevante\n   - Sugira alternativas se conhecer\n   - Termine com dicas importantes ou cuidados especiais\n\n3. **Use Texto Simples para WhatsApp:**\n   - Sem formatação Markdown (*, #, **, etc.)\n   - Apenas texto corrido com quebras de linha quando necessário\n   - Parágrafos curtos e claros\n   - Emojis apenas quando realmente agregarem valor\n\n4. **Mantenha o Tom Profissional mas Humano:**\n   - Português brasileiro natural\n   - Explique termos técnicos de forma simples\n   - Seja confiável sem ser robótico\n   - Mostre que você realmente se importa em ajudar\n\nInformações disponíveis sobre o assunto:\n---\n"

/-- Constant middle of the technical RAG prompt, between the context block
and the query (prompt_service.py lines 63 to 65). -/
def technicalMid : String := "\n---\n\nPergunta do usuário: "

/-- Constant tail of the technical RAG prompt (prompt_service.py line 67). -/
def technicalTail : String := "\n\nSua resposta como consultor:"

/-- The technical RAG prompt of prompt_service.py lines 29 to 68, with the
context block and the query interpolated. -/
def technical_prompt (query context_block : String) : String :=
  technicalHead ++ context_block ++ technicalMid ++ query ++ technicalTail

/-- format_rag_prompt of src/service/prompt_service.py: picks the greeting
prompt when is_greeting holds, and otherwise the technical prompt over the
context, or over the fixed placeholder when the context is blank. -/
def format_rag_prompt (query context : String) : String :=
  let context_block := if pyStrip context = "" then noInfoMsg else context
  if is_greeting query then greeting_prompt query
  else technical_prompt query context_block

/-- get_disclaimer of src/service/prompt_service.py lines 70 to 73: the fixed
disclaimer text appended to prescriptive answers. -/
def get_disclaimer : String :=
  "\n⚠️ IMPORTANTE: Essas orientações são baseadas em informações técnicas de referência. Sempre consulte um engenheiro agrônomo e leia a bula oficial antes de aplicar qualquer produto. Dosagens e recomendações podem variar conforme sua região, condições locais e estágio da cultura."

/-- The fixed critical vocabulary of should_include_disclaimer
(src/service/prompt_service.py lines 80 to 86). -/
def critical_keywords : List String :=
  ["dosagem", "dose", "ml", "litro", "gramas", "kg", "hectare",
   "aplicação", "aplicar", "mistura", "concentração", "diluição",
   "recomendação", "recomendado", "usar", "utilize", "quantidade",
   "proporção", "intervalo", "período", "frequência", "vezes",
   "pulverização", "tratamento", "controle", "combate"]

/-- should_include_disclaimer of src/service/prompt_service.py: true when at
least two entries of the critical vocabulary occur as substrings of the
lower-cased response. -/
def should_include_disclaimer (response_text : String) : Bool :=
  decide (2 ≤ critical_keywords.countP (fun k => occursIn k (pyLower response_text)))

/-- Disclaimer application of generate_response_node
(src/core/agent.py lines 120 to 123): append the fixed disclaimer exactly
when should_include_disclaimer holds. -/
def apply_disclaimer (response_text : String) : String :=
  if should_include_disclaimer response_text then response_text ++ get_disclaimer
  else response_text

/-- QueryEmbedder.embed_query of src/service/embeddings_services.py. The two
sub-embedding calls are modelled by their outcomes: denseRes is what the
Bedrock Titan call inside the internal dense helper produces (an error when
that call raises, already wrapped by the helper in its RuntimeError message),
and sparseRes is what the FastEmbed BM25 query_embed call produces. The
function validates the query, then fails with the wrapping RuntimeError of
the except branch if either sub-embedding fails, and otherwise assembles the
composite bundle. -/
def embed_query (query : String) (denseRes : Except String (List Float))
    (sparseRes : Except String SparseVector) : Except String QueryEmbeddings :=
  if pyStrip query = "" then .error "Query não pode ser vazia"
  else
    match denseRes with
    | .error e => .error ("Erro ao gerar embeddings: Erro ao gerar embedding denso com Amazon Titan: " ++ e)
    | .ok dense =>
      match sparseRes with
      | .error e => .error ("Erro ao gerar embeddings: " ++ e)
      | .ok sparse => .ok { dense := dense, sparse_bm25 := sparse }

/-- Outcome of the qdrant_client query_points call made by search_documents:
either the fused result points, each given by its payload dict, or a
Qdrant-protocol UnexpectedResponse, or any other exception. -/
inductive StoreOutcome where
  | ok : List (List (String × JValue)) → StoreOutcome
  | unexpectedResponse : String → StoreOutcome
  | otherError : String → StoreOutcome

/-- Construction of one Document from a result point's payload
(retriever_service.py lines 44 to 50): page_content is payload.get with key
text and default empty string, metadata is payload.get with key metadata and
default empty dict. A non-string text value or a metadata value that is
neither a dict nor None makes the pydantic Document constructor raise, which
the surrounding generic except turns into the 500 error. -/
def docOfPoint (payload : List (String × JValue)) : Except String Document :=
  match pyDictGetD payload "text" (.str "") with
  | .str s =>
    match pyDictGetD payload "metadata" (.obj []) with
    | .obj fs => .ok { page_content := s, metadata := some fs }
    | .null => .ok { page_content := s, metadata := none }
    | _ => .error "ValidationError: metadata"
  | _ => .error "ValidationError: page_content"

/-- QdrantRetriever.search_documents of src/service/retriever_service.py.
The store is sent the two prefetch sub-queries built from the bundle and its
fused answer is storeResult; the result points are mapped to Documents in
store order. The limit parameter (signature default 5) is accepted but never
used: it is not forwarded to query_points and no local truncation happens.
An UnexpectedResponse maps to the 503 HTTPException, any other error to the
500 HTTPException. -/
def search_documents (embeddings : QueryEmbeddings) (storeResult : StoreOutcome)
    (limit : Nat := 5) : Except String (List Document) :=
  match storeResult with
  | .ok points =>
    match points.mapM docOfPoint with
    | .ok docs => .ok docs
    | .error _ => .error "HTTP 500: Internal server error"
  | .unexpectedResponse _ => .error "HTTP 503: Search service temporarily unavailable"
  | .otherError _ => .error "HTTP 500: Internal server error"

/-- Python obj.get(k, default) where obj may be any value: a dict performs
the lookup, any other value lacks the get attribute and raises. -/
def pyGetD (v : JValue) (k : String) (d : JValue) : Except String JValue :=
  match v with
  | .obj fs => .ok (pyDictGetD fs k d)
  | _ => .error "AttributeError"

/-- Python v[0]: the head of a non-empty list, the first character of a
non-empty string, IndexError on empty ones, KeyError on a dict without the
key, TypeError on non-subscriptable values. -/
def pyIndex0 : JValue → Except String JValue
  | .arr (x :: _) => .ok x
  | .arr [] => .error "IndexError"
  | .str s => if s = "" then .error "IndexError" else .ok (.str (s.take 1))
  | .obj _ => .error "KeyError"
  | _ => .error "TypeError"

/-- The completions branch body of LLMService response-text extraction
(llm_service.py line 98): response_body completions index 0, then .get data
with dict default, then .get text. -/
def completionsBody (c : JValue) : Except String JValue :=
  match c with
  | .arr (x :: _) =>
    (match x with
     | .obj fs =>
       (match pyDictGetD fs "data" (.obj []) with
        | .obj ds => .ok (pyDictGetD ds "text" .null)
        | _ => .error "AttributeError")
     | _ => .error "AttributeError")
  | .arr [] => .error "IndexError"
  | .str s => if s = "" then .error "IndexError" else .error "AttributeError"
  | .obj _ => .error "KeyError"
  | _ => .error "TypeError"

/-- The results branch body of LLMService response-text extraction
(llm_service.py line 100): response_body results index 0, then
.get outputText. -/
def resultsBody (r : JValue) : Except String JValue :=
  match r with
  | .arr (x :: _) =>
    (match x with
     | .obj fs => .ok (pyDictGetD fs "outputText" .null)
     | _ => .error "AttributeError")
  | .arr [] => .error "IndexError"
  | .str s => if s = "" then .error "IndexError" else .error "AttributeError"
  | .obj _ => .error "KeyError"
  | _ => .error "TypeError"

/-- The output elif and final else of the extraction chain
(llm_service.py lines 101 to 105): if the output key is present take
.get text of its value, otherwise log and return None. -/
def outputChain (body : List (String × JValue)) : Except String JValue :=
  match List.lookup "output" body with
  | some v =>
    (match v with
     | .obj fs => .ok (pyDictGetD fs "text" .null)
     | _ => .error "AttributeError")
  | none => .ok .null

/-- The results elif of the extraction chain (llm_service.py lines 99
to 100): key present and value truthy commits to the results branch,
otherwise fall through to the output elif. -/
def resultsChain (body : List (String × JValue)) : Except String JValue :=
  match List.lookup "results" body with
  | some r => if pyTruthy r then resultsBody r else outputChain body
  | none => outputChain body

/-- LLMService extract-response-text of src/service/llm_service.py lines 93
to 105 (the underscore-prefixed private method): the if-elif chain over the
keys generation, completions, results, output. Returning JValue.null models
Python returning None; an error models the call raising, which
generate_response catches. -/
def extract_response_text (body : List (String × JValue)) : Except String JValue :=
  match List.lookup "generation" body with
  | some v => .ok v
  | none =>
    match List.lookup "completions" body with
    | some c => if pyTruthy c then completionsBody c else resultsChain body
    | none => resultsChain body

/-- LLMService.generate_response of src/service/llm_service.py lines 31
to 82. The prompt is validated first, outside the try block, so an empty
prompt raises. backendResult is the combined outcome of the invoke_model
call and the json.loads of its body: an error when either raises
(ClientError, JSONDecodeError or anything else), which the except clauses
convert to a None return. A raise inside the extraction is caught by the
generic except clause and also becomes None. -/
def generate_response (prompt : String)
    (backendResult : Except String (List (String × JValue))) : Except String JValue :=
  if pyStrip prompt = "" then .error "ValueError: prompt empty"
  else
    match backendResult with
    | .error _ => .ok .null
    | .ok body =>
      match extract_response_text body with
      | .error _ => .ok .null
      | .ok v => .ok v

/-- First-extracted-value strategy chaining, following the specification's
description of the extraction as an ordered list of extraction strategies
tried in priority order, returning None when none matches. -/
def firstExtractor :
    List (List (String × JValue) → Option (Except String JValue)) →
    List (String × JValue) → Except String JValue
  | [], _ => .ok .null
  | s :: rest, body =>
    match s body with
    | some r => r
    | none => firstExtractor rest body

/-- Strategy for the generation key, per the specification: applicable when
the key is present, extracting its value. -/
def tryGeneration (body : List (String × JValue)) : Option (Except String JValue) :=
  (List.lookup "generation" body).map .ok

/-- Strategy for the completions index 0 data text path, per the
specification: applicable when the completions key holds a truthy value. -/
def tryCompletions (body : List (String × JValue)) : Option (Except String JValue) :=
  match List.lookup "completions" body with
  | some c =>
    if pyTruthy c then
      some ((pyIndex0 c).bind (fun x =>
        (pyGetD x "data" (.obj [])).bind (fun d => pyGetD d "text" .null)))
    else none
  | none => none

/-- Strategy for the results index 0 outputText path, per the
specification: applicable when the results key holds a truthy value. -/
def tryResults (body : List (String × JValue)) : Option (Except String JValue) :=
  match List.lookup "results" body with
  | some r =>
    if pyTruthy r then some ((pyIndex0 r).bind (fun x => pyGetD x "outputText" .null))
    else none
  | none => none

/-- Strategy for the output text path, per the specification: applicable
when the output key is present. -/
def tryOutput (body : List (String × JValue)) : Option (Except String JValue) :=
  (List.lookup "output" body).map (fun v => pyGetD v "text" .null)

/-- The specification-side extractor: the four strategies tried in the fixed
priority order generation, completions, results, output, yielding None when
none matches. -/
def specExtract (body : List (String × JValue)) : Except String JValue :=
  firstExtractor [tryGeneration, tryCompletions, tryResults, tryOutput] body

/-- An error record without details, as serialized by json.dumps at
agent.py line 34 and line 68. -/
def errObj2 (node message : String) : JValue :=
  .obj [("node", .str node), ("message", .str message)]

/-- An error record with a traceback in details, as serialized by json.dumps
in the except branches of the three nodes. -/
def errObj (node message details : String) : JValue :=
  .obj [("node", .str node), ("message", .str message), ("details", .str details)]

/-- Constant head of the apology f-string of agent.py line 107, before the
interpolated node name. -/
def apologyHead : String := "Desculpe, ocorreu um erro no passo \x27"

/-- Constant middle of the apology f-string, between node name and message. -/
def apologyMid : String := "\x27: "

/-- The user-facing apology of generate_response_node (agent.py line 107),
built from the parsed prior error record: the f-string interpolates the
record's node and message fields with their defaults, and nothing else. -/
def apologyOf (fs : List (String × JValue)) : String :=
  apologyHead ++ pyGetStrD fs "node" "desconhecido" ++ apologyMid ++
    pyGetStrD fs "message" "Erro interno."

/-- embed_query_node of src/core/agent.py lines 25 to 52. embedder is the
QueryEmbedder.embed_query collaborator (an error when the call raises) and
tb the traceback text the except branch formats. A falsy query returns the
no-query error record; a collaborator error is caught and stored as an error
record; on success the bundle is stored and error is cleared. The check
raising on a falsy embeddings result can never fire because a pydantic model
object is always truthy, so it is not represented. The node body cannot
raise, hence the plain NodeUpdate result. -/
def embed_query_node (state : AgentState)
    (embedder : String → Except String QueryEmbeddings) (tb : String) : NodeUpdate :=
  if state.query = "" then
    { error := some (some (errObj2 "embed_query" "Query não encontrada no estado.")) }
  else
    match embedder state.query with
    | .ok embeddings => { query_embedding := some (some embeddings), error := some none }
    | .error e => { error := some (some (errObj "embed_query" e tb)) }

/-- retrieve_documents_node of src/core/agent.py lines 55 to 98. searcher is
the QdrantRetriever.search_documents collaborator, receiving the bundle and
the configured retrieval limit, and tb the traceback text of the except
branch. A truthy prior error (every serialized record is truthy) skips
retrieval and returns only empty docs and context, leaving the error key
absent; a missing bundle yields the inconsistency error record; on success
the non-empty passage texts are joined with the fixed separator; a searcher
error is caught into an error record. The body cannot raise. -/
def retrieve_documents_node (state : AgentState)
    (searcher : QueryEmbeddings → Nat → Except String (List Document))
    (tb : String) : NodeUpdate :=
  match state.error with
  | some _ => { retrieved_docs := some [], context := some "" }
  | none =>
    match state.query_embedding with
    | none =>
      { retrieved_docs := some [], context := some "",
        error := some (some (errObj2 "retrieve_documents"
          "Objeto de embeddings não encontrado no estado.")) }
    | some query_embedding =>
      match searcher query_embedding settings_retrieval_limit with
      | .ok retrieved_documents =>
        let context_texts :=
          (retrieved_documents.map Document.page_content).filter (fun t => t ≠ "")
        let context :=
          if context_texts.isEmpty then ""
          else String.intercalate "\n\n---\n\n" context_texts
        { retrieved_docs := some retrieved_documents, context := some context,
          error := some none }
      | .error e =>
        { retrieved_docs := some [], context := some "",
          error := some (some (errObj "retrieve_documents" e tb)) }

/-- generate_response_node of src/core/agent.py lines 101 to 131. llm is the
LLMService.generate_response collaborator (JValue.null models a None return;
an error models the call raising) and tb the traceback text of the except
branch. A truthy prior error is parsed with json.loads and answered with the
apology, outside the try block, so a record that is not a JSON object makes
the node itself raise (modelled by the Except.error result); that path is
unreachable for pipeline-produced errors. Otherwise the prompt is formatted,
the LLM invoked, a falsy response text raises the empty-response ValueError
into the except branch, a non-string truthy response raises inside the
disclaimer check (AttributeError on lower), and a truthy string response gets
the conditional disclaimer and clears the error. -/
def generate_response_node (state : AgentState)
    (llm : String → Except String JValue) (tb : String) : Except String NodeUpdate :=
  match state.error with
  | some (.obj fs) => .ok { response := some (some (apologyOf fs)) }
  | some _ => .error "AttributeError: parsed error record has no attribute get"
  | none =>
    let prompt := format_rag_prompt state.query state.context
    match llm prompt with
    | .error e =>
      .ok { response := some none,
            error := some (some (errObj "generate_response" e tb)) }
    | .ok response_text =>
      if pyTruthy response_text then
        match response_text with
        | .str s =>
          .ok { response := some (some (apply_disclaimer s)), error := some none }
        | _ =>
          .ok { response := some none,
                error := some (some (errObj "generate_response"
                  "AttributeError: response has no attribute lower" tb)) }
      else
        .ok { response := some none,
              error := some (some (errObj "generate_response"
                "Falha ao gerar resposta do LLM (resposta vazia)." tb)) }

lemma subPre_self_append (n t : List Char) : subPre n (n ++ t) = true := by
  induction n with
  | nil => rfl
  | cons a as ih => simp [subPre, ih]

lemma subIn_of_subPre {n h : List Char} (hp : subPre n h = true) : subIn n h = true := by
  cases h with
  | nil =>
    cases n with
    | nil => rfl
    | cons a as => simp [subPre] at hp
  | cons c t => simp [subIn, hp]

lemma subIn_append_left (n a h : List Char) (hh : subIn n h = true) :
    subIn n (a ++ h) = true := by
  induction a with
  | nil => simpa
  | cons c t ih =>
    simp only [List.cons_append, subIn, Bool.or_eq_true]
    right
    exact ih

lemma occursIn_of_parts (n h : String) (a b : List Char)
    (hdata : h.data = a ++ (n.data ++ b)) : occursIn n h = true := by
  show subIn n.data h.data = true
  rw [hdata]
  exact subIn_append_left _ _ _ (subIn_of_subPre (subPre_self_append n.data b))

lemma len_ge_left (a b : List Char) (h : 41 ≤ a.length) : 41 ≤ (a ++ b).length := by
  rw [List.length_append]
  omega

lemma greeting_ne_technical (q q' cb : String) :
    greeting_prompt q ≠ technical_prompt q' cb := by
  intro h
  have hd := congrArg (fun s => s.data.take 41) h
  simp only [greeting_prompt, technical_prompt, String.data_append] at hd
  rw [List.take_append_of_le_length (len_ge_left _ _ (by decide)),
      List.take_append_of_le_length (by decide : (41 : Nat) ≤ greetingHead.data.length),
      List.take_append_of_le_length
        (len_ge_left _ _ (len_ge_left _ _ (len_ge_left _ _ (by decide)))),
      List.take_append_of_le_length (len_ge_left _ _ (len_ge_left _ _ (by decide))),
      List.take_append_of_le_length (len_ge_left _ _ (by decide)),
      List.take_append_of_le_length (by decide : (41 : Nat) ≤ technicalHead.data.length)]
    at hd
  exact absurd hd (by decide)

lemma two_mem_le_length {l : List String} {x y : String}
    (hx : x ∈ l) (hy : y ∈ l) (hxy : x ≠ y) : 2 ≤ l.length := by
  match l with
  | [] => cases hx
  | [a] =>
    simp only [List.mem_singleton] at hx hy
    exact absurd (hx.trans hy.symm) hxy
  | a :: b :: t =>
    simp only [List.length_cons]
    omega

lemma countP_two_iff (l : List String) (hnd : l.Nodup) (p : String → Bool) :
    2 ≤ l.countP p ↔ ∃ a ∈ l, ∃ b ∈ l, a ≠ b ∧ p a = true ∧ p b = true := by
  rw [l.countP_eq_length_filter p]
  constructor
  · intro h
    match hf : l.filter p with
    | [] => rw [hf] at h; simp at h
    | [a] => rw [hf] at h; simp at h
    | a :: b :: t =>
      have hnf : (l.filter p).Nodup := hnd.filter p
      rw [hf] at hnf
      have hab : a ≠ b := by
        rcases List.nodup_cons.mp hnf with ⟨hnotin, _⟩
        intro e
        exact hnotin (e ▸ List.mem_cons_self b t)
      have ha' : a ∈ l.filter p := by rw [hf]; exact List.mem_cons_self _ _
      have hb' : b ∈ l.filter p := by
        rw [hf]; exact List.mem_cons_of_mem _ (List.mem_cons_self _ _)
      obtain ⟨ha, hpa⟩ := List.mem_filter.mp ha'
      obtain ⟨hb, hpb⟩ := List.mem_filter.mp hb'
      exact ⟨a, ha, b, hb, hab, hpa, hpb⟩
  · rintro ⟨a, ha, b, hb, hab, hpa, hpb⟩
    exact two_mem_le_length (List.mem_filter.mpr ⟨ha, hpa⟩)
      (List.mem_filter.mpr ⟨hb, hpb⟩) hab

lemma intercalate_of_if (sep : String) (l : List String) :
    (if l.isEmpty then "" else String.intercalate sep l) = String.intercalate sep l := by
  cases l with
  | nil => rfl
  | cons a t => rfl

lemma completionsBody_eq (c : JValue) :
    completionsBody c =
      (pyIndex0 c).bind (fun x =>
        (pyGetD x "data" (.obj [])).bind (fun d => pyGetD d "text" .null)) := by
  cases c with
  | null => rfl
  | bool b => rfl
  | num n => rfl
  | obj fs => rfl
  | str s => by_cases hs : s = "" <;> simp [completionsBody, pyIndex0, hs, Except.bind, pyGetD]
  | arr l =>
    cases l with
    | nil => rfl
    | cons x t =>
      cases x with
      | null => rfl
      | bool b => rfl
      | num n => rfl
      | str s => rfl
      | arr l2 => rfl
      | obj fs =>
        simp only [completionsBody, pyIndex0, pyGetD, Except.bind]

lemma resultsBody_eq (r : JValue) :
    resultsBody r = (pyIndex0 r).bind (fun x => pyGetD x "outputText" .null) := by
  cases r with
  | null => rfl
  | bool b => rfl
  | num n => rfl
  | obj fs => rfl
  | str s => by_cases hs : s = "" <;> simp [resultsBody, pyIndex0, hs, Except.bind, pyGetD]
  | arr l =>
    cases l with
    | nil => rfl
    | cons x t => cases x <;> rfl

lemma outputChain_eq (body : List (String × JValue)) :
    outputChain body = firstExtractor [tryOutput] body := by
  cases ho : List.lookup "output" body with
  | some v =>
    simp only [outputChain, firstExtractor, tryOutput, ho, Option.map_some]
    cases v <;> rfl
  | none => simp [outputChain, firstExtractor, tryOutput, ho]

lemma resultsChain_eq (body : List (String × JValue)) :
    resultsChain body = firstExtractor [tryResults, tryOutput] body := by
  cases hr : List.lookup "results" body with
  | some r =>
    by_cases ht : pyTruthy r = true
    · simp [resultsChain, firstExtractor, tryResults, hr, ht, resultsBody_eq r,
        pyDictGetD]
    · have ht' : pyTruthy r = false := by simpa using ht
      simp only [resultsChain, firstExtractor, tryResults, hr, ht',
        Bool.false_eq_true, if_false]
      exact outputChain_eq body
  | none =>
    simp only [resultsChain, firstExtractor, tryResults, hr]
    exact outputChain_eq body

lemma extract_eq_spec (body : List (String × JValue)) :
    extract_response_text body = specExtract body := by
  cases hg : List.lookup "generation" body with
  | some v => simp [extract_response_text, specExtract, firstExtractor, tryGeneration, hg]
  | none =>
    simp only [extract_response_text, specExtract, firstExtractor, tryGeneration, hg,
      Option.map_none]
    cases hc : List.lookup "completions" body with
    | some c =>
      by_cases ht : pyTruthy c = true
      · simp [tryCompletions, firstExtractor, hc, ht, completionsBody_eq c]
      · have ht' : pyTruthy c = false := by simpa using ht
        simp only [tryCompletions, firstExtractor, hc, ht', Bool.false_eq_true, if_false]
        exact resultsChain_eq body
    | none =>
      simp only [tryCompletions, firstExtractor, hc]
      exact resultsChain_eq body

/-- C1: the claim says search_documents returns a passage list truncated to
at most limit entries (limit defaulting to 10). The code never applies the
limit: the parameter (whose signature default is even 5, the configured
default 10 only being what agent.py passes in) is not forwarded to
query_points and no local truncation happens, so a fused store response of
six points with limit 5 comes back as all six documents, in store order. -/
theorem C1_limit_ignored :
    search_documents
        { dense := [], sparse_bm25 := { indices := [], values := [] } }
        (StoreOutcome.ok (List.replicate 6 [("text", JValue.str "t")])) 5 =
      Except.ok (List.replicate 6 { page_content := "t", metadata := some [] }) ∧
    ¬ (List.replicate 6
        ({ page_content := "t", metadata := some [] } : Document)).length ≤ 5 := by
  exact ⟨rfl, by decide⟩

/-- C2 counterexample: the query apoio has one token and is not,
case-insensitively, an entry of the greeting vocabulary, yet
format_rag_prompt produces the greeting-persona prompt for it (the code
tests substring containment, and oi is a substring of apoio), refuting the
claimed characterization of when the greeting prompt appears. -/
theorem C2_claim_counterexample :
    format_rag_prompt "apoio" "dados técnicos do produto" = greeting_prompt "apoio" ∧
    pyTokenCount "apoio" = 1 ∧
    saudacoes.all (fun g => pyLower (pyStrip "apoio") != g) = true := by
  exact ⟨rfl, rfl, rfl⟩

/-- C2 (amended): format_rag_prompt produces the distinct greeting-persona
prompt, ignoring the context entirely, exactly when the query has at most 3
whitespace-separated tokens and some entry of the fixed greeting vocabulary
occurs, case-insensitively, as a substring of the stripped query; in
particular the input oi gets the greeting prompt whatever the context is. -/
theorem C2_greeting_gate (query context : String) :
    (format_rag_prompt query context = greeting_prompt query ↔
      (∃ g ∈ saudacoes, occursIn g (pyStrip (pyLower query)) = true) ∧
        pyTokenCount query ≤ 3) ∧
    format_rag_prompt "oi" context = greeting_prompt "oi" := by
  constructor
  · have hiff : is_greeting query = true ↔
        (∃ g ∈ saudacoes, occursIn g (pyStrip (pyLower query)) = true) ∧
          pyTokenCount query ≤ 3 := by
      simp [is_greeting, Bool.and_eq_true, List.any_eq_true, decide_eq_true_iff]
    cases hg : is_greeting query with
    | true =>
      rw [show format_rag_prompt query context = greeting_prompt query from by
        simp [format_rag_prompt, hg]]
      exact iff_of_true rfl (hiff.mp hg)
    | false =>
      have hne : format_rag_prompt query context ≠ greeting_prompt query := by
        rw [show format_rag_prompt query context =
            technical_prompt query (if pyStrip context = "" then noInfoMsg else context)
          from by simp [format_rag_prompt, hg]]
        exact fun h => greeting_ne_technical query query _ h.symm
      refine iff_of_false hne fun hcond => ?_
      rw [hiff.mpr hcond] at hg
      exact Bool.true_eq_false.mp hg
  · rfl

/-- C2 witness: the theorem applied at the query oi with a non-empty
context. -/
theorem C2_greeting_gate_witness :
    format_rag_prompt "oi" "algum contexto recuperado" = greeting_prompt "oi" :=
  (C2_greeting_gate "oi" "algum contexto recuperado").2

/-- C3: a state entering RetrieveDocuments with error set skips retrieval
(the output does not depend on the retriever at all), the update carries
empty retrieved docs and empty context and leaves the error key absent, so
the merged state keeps the incoming error unchanged. -/
theorem C3_error_short_circuit (state : AgentState) (rec : JValue)
    (s₁ s₂ : QueryEmbeddings → Nat → Except String (List Document))
    (tb₁ tb₂ : String) (h : state.error = some rec) :
    retrieve_documents_node state s₁ tb₁ = retrieve_documents_node state s₂ tb₂ ∧
    retrieve_documents_node state s₁ tb₁ =
      { retrieved_docs := some [], context := some "" } ∧
    (applyUpdate state (retrieve_documents_node state s₁ tb₁)).error = some rec := by
  unfold retrieve_documents_node
  rw [h]
  exact ⟨rfl, rfl, by simp [applyUpdate, h]⟩

/-- C3 witness: the theorem applied to a concrete state carrying an embed
error, with two retrievers that differ. -/
theorem C3_error_short_circuit_witness :
    retrieve_documents_node
        { query := "q", error := some (errObj2 "embed_query" "boom") }
        (fun _ _ => Except.ok [{ page_content := "X" }]) "t1" =
      { retrieved_docs := some [], context := some "" } :=
  (C3_error_short_circuit
    { query := "q", error := some (errObj2 "embed_query" "boom") }
    (errObj2 "embed_query" "boom")
    (fun _ _ => Except.ok [{ page_content := "X" }])
    (fun _ _ => Except.error "down") "t1" "t2" rfl).2.1

/-- C4: on the success path the RetrieveDocuments stage builds the context by
dropping passages with empty text and joining the remaining texts with the
fixed separator, stores the retrieved passages, and clears the error, so the
merged state has no error; the empty-or-all-blank case yields the empty
string by the same join. -/
theorem C4_context_assembly (state : AgentState) (emb : QueryEmbeddings)
    (docs : List Document) (tb : String)
    (herr : state.error = none) (hemb : state.query_embedding = some emb) :
    retrieve_documents_node state (fun _ _ => Except.ok docs) tb =
      { retrieved_docs := some docs,
        context := some (String.intercalate "\n\n---\n\n"
          ((docs.map Document.page_content).filter (fun t => t ≠ ""))),
        error := some none } ∧
    (applyUpdate state (retrieve_documents_node state (fun _ _ => Except.ok docs) tb)).error
      = none := by
  have hnode : retrieve_documents_node state (fun _ _ => Except.ok docs) tb =
      { retrieved_docs := some docs,
        context := some (String.intercalate "\n\n---\n\n"
          ((docs.map Document.page_content).filter (fun t => t ≠ ""))),
        error := some none } := by
    unfold retrieve_documents_node
    rw [herr, hemb]
    simp only [intercalate_of_if]
  exact ⟨hnode, by simp [applyUpdate, hnode]⟩

/-- C4 witness: the theorem applied to the passages A, empty, B, whose
context is A, separator, B. -/
theorem C4_context_assembly_witness :
    retrieve_documents_node
        { query := "q",
          query_embedding := some { dense := [], sparse_bm25 := { indices := [], values := [] } } }
        (fun _ _ => Except.ok
          [{ page_content := "A" }, { page_content := "" }, { page_content := "B" }]) "t" =
      { retrieved_docs := some
          [{ page_content := "A" }, { page_content := "" }, { page_content := "B" }],
        context := some "A\n\n---\n\nB", error := some none } :=
  (C4_context_assembly
    { query := "q",
      query_embedding := some { dense := [], sparse_bm25 := { indices := [], values := [] } } }
    { dense := [], sparse_bm25 := { indices := [], values := [] } }
    [{ page_content := "A" }, { page_content := "" }, { page_content := "B" }] "t"
    rfl rfl).1

/-- C5: should_include_disclaimer holds exactly when two distinct keywords of
the fixed critical vocabulary occur in the lower-cased response (so a text
containing exactly one keyword never triggers it), and the generation stage
appends the fixed disclaimer verbatim exactly when it holds, returning the
response unchanged otherwise. -/
theorem C5_disclaimer_threshold (t : String) :
    (should_include_disclaimer t = true ↔
      ∃ a ∈ critical_keywords, ∃ b ∈ critical_keywords, a ≠ b ∧
        occursIn a (pyLower t) = true ∧ occursIn b (pyLower t) = true) ∧
    (should_include_disclaimer t = true → apply_disclaimer t = t ++ get_disclaimer) ∧
    (should_include_disclaimer t = false → apply_disclaimer t = t) := by
  refine ⟨?_, fun h => by simp [apply_disclaimer, h], fun h => by simp [apply_disclaimer, h]⟩
  rw [should_include_disclaimer, decide_eq_true_iff]
  exact countP_two_iff critical_keywords (by decide) _

/-- C5 witness: the theorem applied to a response containing the two distinct
keywords dose and hectare, which receives the disclaimer. -/
theorem C5_disclaimer_threshold_witness :
    apply_disclaimer "Use a dose indicada por hectare" =
      "Use a dose indicada por hectare" ++ get_disclaimer :=
  (C5_disclaimer_threshold "Use a dose indicada por hectare").2.1 (by decide)

/-- C6: embed_query returns a bundle only when both sub-embeddings succeed,
and the returned bundle is exactly their two results (never partially
populated); when either sub-embedding fails the whole call fails with an
error. -/
theorem C6_atomic_embedding (q : String) (dres : Except String (List Float))
    (sres : Except String SparseVector) :
    (∀ b, embed_query q dres sres = Except.ok b →
      dres = Except.ok b.dense ∧ sres = Except.ok b.sparse_bm25) ∧
    ((∃ e, dres = Except.error e) ∨ (∃ e, sres = Except.error e) →
      ∃ e, embed_query q dres sres = Except.error e) := by
  constructor
  · intro b hb
    unfold embed_query at hb
    by_cases hq : pyStrip q = ""
    · rw [if_pos hq] at hb
      cases hb
    · rw [if_neg hq] at hb
      cases dres with
      | error e => cases hb
      | ok d =>
        cases sres with
        | error e => cases hb
        | ok s =>
          cases hb
          exact ⟨rfl, rfl⟩
  · intro hfail
    unfold embed_query
    by_cases hq : pyStrip q = ""
    · exact ⟨_, if_pos hq⟩
    · rw [if_neg hq]
      rcases hfail with ⟨e, he⟩ | ⟨e, he⟩
      · rw [he]
        exact ⟨_, rfl⟩
      · rw [he]
        cases dres with
        | error d => exact ⟨_, rfl⟩
        | ok d => exact ⟨_, rfl⟩

/-- C6 witness: the theorem applied to a failing dense sub-embedding, making
the whole call fail. -/
theorem C6_atomic_embedding_witness :
    ∃ e, embed_query "Como plantar milho?" (Except.error "credential error")
        (Except.ok { indices := [], values := [] }) = Except.error e :=
  (C6_atomic_embedding "Como plantar milho?" (Except.error "credential error")
    (Except.ok { indices := [], values := [] })).2 (Or.inl ⟨"credential error", rfl⟩)

/-- C7: the response-text extraction equals the specification's ordered
strategy chain over the keys generation, completions index 0 data text,
results index 0 outputText, output text, in that fixed priority order; when
no key shape matches it returns None without raising; and generate_response
turns every backend error, and every raise inside the extraction, into a
None return rather than an exception, never failing once the prompt is
valid. -/
theorem C7_extraction_order :
    (∀ body, extract_response_text body = specExtract body) ∧
    (∀ body, List.lookup "generation" body = none →
      (∀ c, List.lookup "completions" body = some c → pyTruthy c = false) →
      (∀ r, List.lookup "results" body = some r → pyTruthy r = false) →
      List.lookup "output" body = none →
      extract_response_text body = Except.ok JValue.null) ∧
    (∀ prompt backend e, pyStrip prompt ≠ "" → backend = Except.error e →
      generate_response prompt backend = Except.ok JValue.null) ∧
    (∀ prompt body err, pyStrip prompt ≠ "" →
      extract_response_text body = Except.error err →
      generate_response prompt (Except.ok body) = Except.ok JValue.null) ∧
    (∀ prompt body, pyStrip prompt ≠ "" →
      ∃ v, generate_response prompt (Except.ok body) = Except.ok v) := by
  refine ⟨extract_eq_spec, ?_, ?_, ?_, ?_⟩
  · intro body hg hc hr ho
    simp only [extract_response_text, resultsChain, outputChain, hg, ho]
    cases hcs : List.lookup "completions" body with
    | some c =>
      simp only [hcs, hc c hcs, Bool.false_eq_true, if_false]
      cases hrs : List.lookup "results" body with
      | some r => simp only [hrs, hr r hrs, Bool.false_eq_true, if_false]
      | none => simp only [hrs]
    | none =>
      simp only [hcs]
      cases hrs : List.lookup "results" body with
      | some r => simp only [hrs, hr r hrs, Bool.false_eq_true, if_false]
      | none => simp only [hrs]
  · intro prompt backend e hp hb
    subst hb
    unfold generate_response
    rw [if_neg hp]
  · intro prompt body err hp hext
    unfold generate_response
    rw [if_neg hp]
    show (match extract_response_text body with
          | Except.error _ => Except.ok JValue.null
          | Except.ok v => Except.ok v) = Except.ok JValue.null
    rw [hext]
  · intro prompt body hp
    unfold generate_response
    rw [if_neg hp]
    show ∃ v, (match extract_response_text body with
          | Except.error _ => Except.ok JValue.null
          | Except.ok v => Except.ok v) = Except.ok v
    cases hext : extract_response_text body with
    | error err => exact ⟨JValue.null, rfl⟩
    | ok v => exact ⟨v, rfl⟩

/-- C7 witness: the theorem applied to a throttling backend error, which
yields a None return. -/
theorem C7_extraction_order_witness :
    generate_response "Qual a dose?" (Except.error "ThrottlingException") =
      Except.ok JValue.null :=
  C7_extraction_order.2.2.1 "Qual a dose?" (Except.error "ThrottlingException")
    "ThrottlingException" (by decide) rfl

/-- C8: a state entering GenerateResponse with a prior error record skips
real generation (the output does not depend on the LLM collaborator), the
produced response is the apology string, the apology embeds the record's
stage name and message, and it is a function of the node and message fields
only, so the diagnostic details field can never leak into it. -/
theorem C8_error_apology (state : AgentState) (fs : List (String × JValue))
    (llm llm' : String → Except String JValue) (tb tb' : String)
    (h : state.error = some (JValue.obj fs)) :
    generate_response_node state llm tb = generate_response_node state llm' tb' ∧
    generate_response_node state llm tb =
      Except.ok { response := some (some (apologyOf fs)) } ∧
    occursIn (pyGetStrD fs "node" "desconhecido") (apologyOf fs) = true ∧
    occursIn (pyGetStrD fs "message" "Erro interno.") (apologyOf fs) = true ∧
    (∀ fs', List.lookup "node" fs' = List.lookup "node" fs →
      List.lookup "message" fs' = List.lookup "message" fs →
      apologyOf fs' = apologyOf fs) := by
  refine ⟨?_, ?_, ?_, ?_, ?_⟩
  · unfold generate_response_node
    rw [h]
  · unfold generate_response_node
    rw [h]
  · exact occursIn_of_parts _ _ apologyHead.data
      (apologyMid.data ++ (pyGetStrD fs "message" "Erro interno.").data)
      (by simp [apologyOf, String.data_append, List.append_assoc])
  · exact occursIn_of_parts _ _
      (apologyHead.data ++ ((pyGetStrD fs "node" "desconhecido").data ++ apologyMid.data)) []
      (by simp [apologyOf, String.data_append, List.append_assoc])
  · intro fs' hn hm
    unfold apologyOf pyGetStrD
    rw [hn, hm]

/-- C8 witness: the theorem applied to a state carrying an embed error
record with a details field; the response is the apology built from the
stage name and message alone. -/
theorem C8_error_apology_witness :
    generate_response_node
        { query := "q", error := some (errObj "embed_query" "boom" "Traceback (most recent call last)") }
        (fun _ => Except.ok (JValue.str "ignored")) "t" =
      Except.ok { response := some (some
        "Desculpe, ocorreu um erro no passo \x27embed_query\x27: boom") } :=
  (C8_error_apology
    { query := "q", error := some (errObj "embed_query" "boom" "Traceback (most recent call last)") }
    [("node", JValue.str "embed_query"), ("message", JValue.str "boom"),
      ("details", JValue.str "Traceback (most recent call last)")]
    (fun _ => Except.ok (JValue.str "ignored"))
    (fun _ => Except.error "other") "t" "t2" rfl).2.1

/-- C9: collaborator failures never cross a stage boundary: the embed and
retrieve node bodies are total functions into well-formed updates that turn
a raising collaborator into a stored error record carrying its message, and
the generate node, whose only raising path is the parse of a prior
non-object error (unreachable for pipeline-produced errors), returns a
well-formed ok update on every state whose prior error is absent or a
record, turning a raising LLM collaborator into a stored error record. -/
theorem C9_stage_error_capture :
    (∀ (state : AgentState) (e tb : String), state.query ≠ "" →
      embed_query_node state (fun _ => Except.error e) tb =
        { error := some (some (errObj "embed_query" e tb)) }) ∧
    (∀ (state : AgentState) (emb : QueryEmbeddings) (e tb : String),
      state.error = none → state.query_embedding = some emb →
      retrieve_documents_node state (fun _ _ => Except.error e) tb =
        { retrieved_docs := some [], context := some "",
          error := some (some (errObj "retrieve_documents" e tb)) }) ∧
    (∀ (state : AgentState) (e tb : String), state.error = none →
      generate_response_node state (fun _ => Except.error e) tb =
        Except.ok { response := some none,
                    error := some (some (errObj "generate_response" e tb)) }) ∧
    (∀ (state : AgentState) (llm : String → Except String JValue) (tb : String),
      state.error = none → ∃ u, generate_response_node state llm tb = Except.ok u) ∧
    (∀ (state : AgentState) (llm : String → Except String JValue) (tb : String)
      (fs : List (String × JValue)), state.error = some (JValue.obj fs) →
      ∃ u, generate_response_node state llm tb = Except.ok u) := by
  refine ⟨?_, ?_, ?_, ?_, ?_⟩
  · intro state e tb hq
    unfold embed_query_node
    rw [if_neg hq]
  · intro state emb e tb herr hemb
    unfold retrieve_documents_node
    rw [herr, hemb]
  · intro state e tb herr
    unfold generate_response_node
    rw [herr]
  · intro state llm tb herr
    cases hl : llm (format_rag_prompt state.query state.context) with
    | error e => exact ⟨_, by simp only [generate_response_node, herr, hl]; rfl⟩
    | ok v =>
      by_cases ht : pyTruthy v = true
      · cases v with
        | str s =>
          exact ⟨_, by simp only [generate_response_node, herr, hl, ht, if_true]; rfl⟩
        | null => simp [pyTruthy] at ht
        | bool b =>
          exact ⟨_, by simp only [generate_response_node, herr, hl, ht, if_true]; rfl⟩
        | num n =>
          exact ⟨_, by simp only [generate_response_node, herr, hl, ht, if_true]; rfl⟩
        | arr l =>
          exact ⟨_, by simp only [generate_response_node, herr, hl, ht, if_true]; rfl⟩
        | obj fs =>
          exact ⟨_, by simp only [generate_response_node, herr, hl, ht, if_true]; rfl⟩
      · have ht' : pyTruthy v = false := by simpa using ht
        exact ⟨_, by simp only [generate_response_node, herr, hl, ht',
          Bool.false_eq_true, if_false]; rfl⟩
  · intro state llm tb fs h
    exact ⟨_, by simp only [generate_response_node, h]; rfl⟩

/-- C9 witness: the theorem applied to the embed stage with a raising
embedding backend. -/
theorem C9_stage_error_capture_witness :
    embed_query_node { query := "Como plantar milho?" }
        (fun _ => Except.error "NoCredentialsError") "tb" =
      { error := some (some (errObj "embed_query" "NoCredentialsError" "tb")) } :=
  C9_stage_error_capture.1 { query := "Como plantar milho?" }
    "NoCredentialsError" "tb" (by decide)

/-- C10: every value a stage stores in the error field is a JSON object with
string values under the keys node and message, all its keys drawn from node,
message and details; consequently the GenerateResponse read of a prior
pipeline-produced error parses, finds both keys, and produces the apology
built from exactly those two strings, never hitting a default or failing. -/
theorem C10_error_channel :
    (∀ (state : AgentState) (embedder : String → Except String QueryEmbeddings)
      (tb : String) (v : JValue),
      (embed_query_node state embedder tb).error = some (some v) →
      ∃ fs, v = JValue.obj fs ∧
        (∃ n, List.lookup "node" fs = some (JValue.str n)) ∧
        (∃ m, List.lookup "message" fs = some (JValue.str m)) ∧
        ∀ kv ∈ fs, kv.1 = "node" ∨ kv.1 = "message" ∨ kv.1 = "details") ∧
    (∀ (state : AgentState) (searcher : QueryEmbeddings → Nat → Except String (List Document))
      (tb : String) (v : JValue),
      (retrieve_documents_node state searcher tb).error = some (some v) →
      ∃ fs, v = JValue.obj fs ∧
        (∃ n, List.lookup "node" fs = some (JValue.str n)) ∧
        (∃ m, List.lookup "message" fs = some (JValue.str m)) ∧
        ∀ kv ∈ fs, kv.1 = "node" ∨ kv.1 = "message" ∨ kv.1 = "details") ∧
    (∀ (state : AgentState) (llm : String → Except String JValue) (tb : String)
      (u : NodeUpdate) (v : JValue),
      generate_response_node state llm tb = Except.ok u →
      u.error = some (some v) →
      ∃ fs, v = JValue.obj fs ∧
        (∃ n, List.lookup "node" fs = some (JValue.str n)) ∧
        (∃ m, List.lookup "message" fs = some (JValue.str m)) ∧
        ∀ kv ∈ fs, kv.1 = "node" ∨ kv.1 = "message" ∨ kv.1 = "details") ∧
    (∀ (state : AgentState) (fs : List (String × JValue)) (n m : String)
      (llm : String → Except String JValue) (tb : String),
      state.error = some (JValue.obj fs) →
      List.lookup "node" fs = some (JValue.str n) →
      List.lookup "message" fs = some (JValue.str m) →
      generate_response_node state llm tb =
        Except.ok { response := some (some (apologyHead ++ n ++ apologyMid ++ m)) }) := by
  refine ⟨?_, ?_, ?_, ?_⟩
  · intro state embedder tb v h
    unfold embed_query_node at h
    by_cases hq : state.query = ""
    · rw [if_pos hq] at h
      have hv := Option.some_injective _ (Option.some_injective _ h)
      subst hv
      exact ⟨_, rfl, ⟨_, rfl⟩, ⟨_, rfl⟩, by simp [errObj2]⟩
    · rw [if_neg hq] at h
      revert h
      cases embedder state.query with
      | ok emb =>
        intro h
        exact Option.noConfusion (Option.some_injective _ h)
      | error e =>
        intro h
        have hv := Option.some_injective _ (Option.some_injective _ h)
        subst hv
        exact ⟨_, rfl, ⟨_, rfl⟩, ⟨_, rfl⟩, by simp [errObj]⟩
  · intro state searcher tb v h
    cases hse : state.error with
    | some rec =>
      simp only [retrieve_documents_node, hse] at h
      exact Option.noConfusion h
    | none =>
      cases hqe : state.query_embedding with
      | none =>
        simp only [retrieve_documents_node, hse, hqe] at h
        have hv := Option.some_injective _ (Option.some_injective _ h)
        subst hv
        exact ⟨_, rfl, ⟨_, rfl⟩, ⟨_, rfl⟩, by simp [errObj2]⟩
      | some emb =>
        cases hs : searcher emb settings_retrieval_limit with
        | ok docs =>
          simp only [retrieve_documents_node, hse, hqe, hs] at h
          exact Option.noConfusion (Option.some_injective _ h)
        | error e =>
          simp only [retrieve_documents_node, hse, hqe, hs] at h
          have hv := Option.some_injective _ (Option.some_injective _ h)
          subst hv
          exact ⟨_, rfl, ⟨_, rfl⟩, ⟨_, rfl⟩, by simp [errObj]⟩
  · intro state llm tb u v hok herr2
    cases hse : state.error with
    | some rec =>
      cases rec with
      | obj fs =>
        simp only [generate_response_node, hse] at hok
        injection hok with hu
        subst hu
        exact Option.noConfusion herr2
      | null =>
        simp only [generate_response_node, hse] at hok
        exact Except.noConfusion hok
      | bool b =>
        simp only [generate_response_node, hse] at hok
        exact Except.noConfusion hok
      | num n =>
        simp only [generate_response_node, hse] at hok
        exact Except.noConfusion hok
      | str s =>
        simp only [generate_response_node, hse] at hok
        exact Except.noConfusion hok
      | arr l =>
        simp only [generate_response_node, hse] at hok
        exact Except.noConfusion hok
    | none =>
      cases hl : llm (format_rag_prompt state.query state.context) with
      | error e =>
        simp only [generate_response_node, hse, hl] at hok
        injection hok with hu
        subst hu
        have hv := Option.some_injective _ (Option.some_injective _ herr2)
        subst hv
        exact ⟨_, rfl, ⟨_, rfl⟩, ⟨_, rfl⟩, by simp [errObj]⟩
      | ok w =>
        simp only [generate_response_node, hse, hl] at hok
        by_cases ht : pyTruthy w = true
        · rw [if_pos ht] at hok
          cases w with
          | str s =>
            injection hok with hu
            subst hu
            exact Option.noConfusion (Option.some_injective _ herr2)
          | null => simp [pyTruthy] at ht
          | bool b =>
            injection hok with hu
            subst hu
            have hv := Option.some_injective _ (Option.some_injective _ herr2)
            subst hv
            exact ⟨_, rfl, ⟨_, rfl⟩, ⟨_, rfl⟩, by simp [errObj]⟩
          | num n =>
            injection hok with hu
            subst hu
            have hv := Option.some_injective _ (Option.some_injective _ herr2)
            subst hv
            exact ⟨_, rfl, ⟨_, rfl⟩, ⟨_, rfl⟩, by simp [errObj]⟩
          | arr l =>
            injection hok with hu
            subst hu
            have hv := Option.some_injective _ (Option.some_injective _ herr2)
            subst hv
            exact ⟨_, rfl, ⟨_, rfl⟩, ⟨_, rfl⟩, by simp [errObj]⟩
          | obj fs =>
            injection hok with hu
            subst hu
            have hv := Option.some_injective _ (Option.some_injective _ herr2)
            subst hv
            exact ⟨_, rfl, ⟨_, rfl⟩, ⟨_, rfl⟩, by simp [errObj]⟩
        · rw [if_neg ht] at hok
          injection hok with hu
          subst hu
          have hv := Option.some_injective _ (Option.some_injective _ herr2)
          subst hv
          exact ⟨_, rfl, ⟨_, rfl⟩, ⟨_, rfl⟩, by simp [errObj]⟩
  · intro state fs n m llm tb h hn hm
    have hap : apologyOf fs = apologyHead ++ n ++ apologyMid ++ m := by
      unfold apologyOf pyGetStrD
      rw [hn, hm]
    simp only [generate_response_node, h]
    rw [hap]

/-- C10 witness: the theorem applied to a state carrying a retrieval error
record; the GenerateResponse read succeeds and builds the apology from
exactly the node and message fields. -/
theorem C10_error_channel_witness :
    generate_response_node
        { query := "q", error := some (errObj2 "retrieve_documents" "down") }
        (fun _ => Except.ok JValue.null) "t" =
      Except.ok { response := some (some
        "Desculpe, ocorreu um erro no passo \x27retrieve_documents\x27: down") } :=
  C10_error_channel.2.2.2
    { query := "q", error := some (errObj2 "retrieve_documents" "down") }
    [("node", JValue.str "retrieve_documents"), ("message", JValue.str "down")]
    "retrieve_documents" "down" (fun _ => Except.ok JValue.null) "t" rfl rfl rfl
